import Mathlib

/-!
Verification of the hybridnet address-activation and topology subsystem.

The development shallowly embeds:
* the ARP activation check (package arp, function CheckWithTimeout), with the
  link-layer probe outcomes abstracted into an environment record;
* the RemoteVtep event handler (pkg/daemon/controller/remotevtep.go);
* the IPAM allocator / retention-store operations exercised by the pod
  controller integration tests (the allocator implementation itself is not in
  the visible source; those definitions are modelled from the spec).

IPs and hardware addresses are handled by the source only as opaque values
plus their textual rendering, so they are embedded as String.
-/

namespace Hybridnet

/-- A network interface as used by CheckWithTimeout: only its name is read. -/
structure Iface where
  name : String
deriving DecidableEq, Repr

/-- Outcome of one arping.PingOverIface call: either a reply carrying the
responder hardware address (err == nil in Go), or any error (timeout, send
failure, ...) carrying its message. -/
inductive ProbeResult where
  | reply (hw : String)
  | noReply (err : String)
deriving DecidableEq, Repr

/-- Environment of one CheckWithTimeout run: the outcomes the link layer would
give to the gateway probe, the duplicate probe, and the gratuitous send. -/
structure ArpEnv where
  gatewayProbe : ProbeResult
  duplicateProbe : ProbeResult
  gratuitousErr : Option String
deriving DecidableEq, Repr

/-- The three link-layer steps of CheckWithTimeout, for attempt traces. -/
inductive Step where
  | gatewayProbe
  | duplicateProbe
  | announce
deriving DecidableEq, Repr

/-- Error message built by the gateway-probe failure branch (fmt.Errorf). -/
def gatewayFailMsg (src gw cause ifname : String) : String :=
  "arp resolve from pod " ++ src ++ " to gateway " ++ gw ++ " failed: " ++ cause ++
    ", vlan network seems not working, please check the setting of " ++ ifname ++
    "\x27s upper physical switch port first"

/-- Error message built by the duplicate-address branch (fmt.Errorf). -/
def duplicateMsg (src hw : String) : String :=
  "pod ip " ++ src ++ " duplicated, please check if ip " ++ src ++
    " is occupied by other machines or containers, another hw addr is " ++ hw

/-- Error message built by the gratuitous-arp failure branch (fmt.Errorf). -/
def announceFailMsg (src cause : String) : String :=
  "send gratuitous arp for pod " ++ src ++ " failed " ++ cause

/-- Embedding of arp.CheckWithTimeout: step 1 probes the gateway (sender =
srcPod) and fails fast on any error; step 2 probes srcPod with sender 0.0.0.0
and fails exactly when a reply arrives; step 3 sends the gratuitous arp and
fails on a send error.  Returns the list of steps attempted together with the
error result (none = nil). -/
def checkWithTimeout (ifi : Iface) (srcPod gateway : String) (env : ArpEnv) :
    List Step × Option String :=
  match env.gatewayProbe with
  | .noReply err =>
      ([Step.gatewayProbe], some (gatewayFailMsg srcPod gateway err ifi.name))
  | .reply _ =>
      match env.duplicateProbe with
      | .reply duplicatedHw =>
          ([Step.gatewayProbe, Step.duplicateProbe],
            some (duplicateMsg srcPod duplicatedHw))
      | .noReply _ =>
          match env.gratuitousErr with
          | some err =>
              ([Step.gatewayProbe, Step.duplicateProbe, Step.announce],
                some (announceFailMsg srcPod err))
          | none =>
              ([Step.gatewayProbe, Step.duplicateProbe, Step.announce], none)

/-- Boolean test: does the character list start with the given pattern? -/
def startsWithL : List Char → List Char → Bool
  | [], _ => true
  | _ :: _, [] => false
  | p :: ps, c :: cs => p == c && startsWithL ps cs

/-- Boolean test: does the character list contain the pattern as a
contiguous sublist? -/
def containsL (pat : List Char) : List Char → Bool
  | [] => startsWithL pat []
  | c :: cs => startsWithL pat (c :: cs) || containsL pat cs

/-- Boolean substring test on strings. -/
def strContains (s pat : String) : Bool :=
  containsL pat.data s.data

/-! ## RemoteVtep event handler (pkg/daemon/controller/remotevtep.go) -/

/-- VTEPInfo of a RemoteVtep spec: tunnel-endpoint IP and MAC strings. -/
structure VTEPInfo where
  ip : String
  mac : String
deriving DecidableEq, Repr

/-- The part of a RemoteVtep spec read by the handler. -/
structure RemoteVtepSpec where
  vtepInfo : VTEPInfo
  endpointIPList : List String
deriving DecidableEq, Repr

/-- The part of a RemoteVtep object read by the handler: its annotations map
and its spec.  Annotations are an association list; reading mirrors a Go map
index, yielding the empty string for an absent key. -/
structure RemoteVtep where
  annotations : List (String × String)
  spec : RemoteVtepSpec
deriving DecidableEq, Repr

/-- Go map read with zero value: m[k] is "" when k is absent. -/
def goMapGet (m : List (String × String)) (k : String) : String :=
  match m.find? (fun e => e.1 == k) with
  | some e => e.2
  | none => ""

/-- The well-known annotation key constants.AnnotationNodeLocalVxlanIPList;
the handler uses it only as an opaque map key. -/
def AnnotationNodeLocalVxlanIPList : String := "networking.alibaba.com/node-local-vxlan-ip-list"

/-- The well-known node-recompute queue item constants ActionReconcileNode;
the handler uses it only as an opaque queue element. -/
def ActionReconcileNode : String := "ActionReconcileNode"

/-- Modelled from the spec: isIPListEqual is referenced by the handler but its
definition is not in the visible source; the spec states that endpoint address
lists are compared position-sensitively (reordering counts as a change), which
is plain list equality. -/
def isIPListEqual (a b : List String) : Bool := a == b

/-- Embedding of enqueueRequestForRemoteVtep.Update: compare VTEP IP, VTEP
MAC, the node-local vxlan IP list annotation value, and the endpoint IP list;
add ActionReconcileNode to the queue exactly when some compared field
differs.  The queue is a list, Add appends. -/
def updateRemoteVtep (oldVtep newVtep : RemoteVtep) (q : List String) : List String :=
  if oldVtep.spec.vtepInfo.ip != newVtep.spec.vtepInfo.ip
      || oldVtep.spec.vtepInfo.mac != newVtep.spec.vtepInfo.mac
      || goMapGet oldVtep.annotations AnnotationNodeLocalVxlanIPList
          != goMapGet newVtep.annotations AnnotationNodeLocalVxlanIPList
      || !isIPListEqual oldVtep.spec.endpointIPList newVtep.spec.endpointIPList
  then q ++ [ActionReconcileNode]
  else q

/-- Embedding of enqueueRequestForRemoteVtep.Create: unconditional enqueue. -/
def createRemoteVtep (q : List String) : List String :=
  q ++ [ActionReconcileNode]

/-- Embedding of enqueueRequestForRemoteVtep.Delete: unconditional enqueue. -/
def deleteRemoteVtep (q : List String) : List String :=
  q ++ [ActionReconcileNode]

/-- The claim's change predicate: at least one of the four compared fields
differs between the old and new snapshot (the node-local address list is
carried as an annotation string; both lists are compared positionally). -/
def vtepFieldsDiffer (oldVtep newVtep : RemoteVtep) : Bool :=
  decide (oldVtep.spec.vtepInfo.ip ≠ newVtep.spec.vtepInfo.ip) ||
  decide (oldVtep.spec.vtepInfo.mac ≠ newVtep.spec.vtepInfo.mac) ||
  decide (goMapGet oldVtep.annotations AnnotationNodeLocalVxlanIPList ≠
      goMapGet newVtep.annotations AnnotationNodeLocalVxlanIPList) ||
  decide (oldVtep.spec.endpointIPList ≠ newVtep.spec.endpointIPList)

/-! ## IPAM allocator and retention store, modelled from the spec

The AddressAllocator / RetentionStore implementation is not part of the
visible source; only its integration tests are.  The definitions below are
modelled from the spec (sections 3, 4.1, 4.2) and checked against the field
assertions of those tests. -/

/-- ReferredObject naming the owning controller of a binding. -/
structure ObjectMeta where
  kind : String
  name : String
  uid : String
deriving DecidableEq, Repr

/-- Stateful sub-record of a binding: the workload's numeric ordinal. -/
structure StatefulInfo where
  index : Nat
deriving DecidableEq, Repr

/-- Binding of an AddressRecord: pod identity, node, owner, ordinal. -/
structure Binding where
  podUID : String
  podName : String
  nodeName : String
  referredObject : ObjectMeta
  stateful : Option StatefulInfo
deriving DecidableEq, Repr

/-- Address family version. -/
inductive IPVersion where
  | v4
  | v6
deriving DecidableEq, Repr

/-- Address value of a record: family version, IP and MAC. -/
structure Address where
  version : IPVersion
  ip : String
  mac : String
deriving DecidableEq, Repr

/-- Modelled from the spec: an AddressRecord as persisted by the allocator —
address value, binding, and the owning network and subnet references. -/
structure AddressRecord where
  address : Address
  binding : Binding
  network : String
  subnet : String
deriving DecidableEq, Repr

/-- Modelled from the spec: a WorkloadIdentity is the ReferredObject plus the
ordinal parsed from the workload name. -/
structure WorkloadIdentity where
  referredObject : ObjectMeta
  index : Nat
deriving DecidableEq, Repr

/-- The retention index: records keyed by stable workload identity. -/
abbrev RetentionStore := List (WorkloadIdentity × AddressRecord)

/-- Modelled from the spec: Lookup returns the stored record only if the key
matches exactly. -/
def lookupRetained (s : RetentionStore) (id : WorkloadIdentity) :
    Option AddressRecord :=
  match s.find? (fun e => decide (e.1 = id)) with
  | some e => some e.2
  | none => none

/-- Modelled from the spec: for stateful identities Release clears only the
binding's transient fields PodUID and NodeName; PodName, ReferredObject,
Stateful and the address/network/subnet are preserved. -/
def releaseStateful (r : AddressRecord) : AddressRecord :=
  { r with binding := { r.binding with podUID := "", nodeName := "" } }

/-- Modelled from the spec: Retain hands the cleared record to the retention
store under the workload identity key. -/
def retainRecord (s : RetentionStore) (id : WorkloadIdentity)
    (r : AddressRecord) : RetentionStore :=
  (id, releaseStateful r) :: s

/-- Remove the retained entry of one identity (the rebind path consumes it). -/
def removeRetained (s : RetentionStore) (id : WorkloadIdentity) :
    RetentionStore :=
  s.filter (fun e => !decide (e.1 = id))

/-- Modelled from the spec: rebinding a retained record to a newly created
pod updates PodUID, PodName and NodeName and nothing else. -/
def rebindRecord (r : AddressRecord) (u pn nn : String) : AddressRecord :=
  { r with binding := { r.binding with podUID := u, podName := pn, nodeName := nn } }

/-- Allocator state for one subnet pool of one family plus the retention
index: remaining free addresses and retained records. -/
structure PoolState where
  free : List Address
  retained : RetentionStore

/-- Modelled from the spec: Allocate consults the RetentionStore first; if a
retained record exists for the identity it is rebound and returned instead of
consuming a new address; otherwise one free address is taken from the pool
and a fresh record is built.  Returns none on pool exhaustion. -/
def allocateOne (st : PoolState) (id : WorkloadIdentity)
    (u pn nn net sub : String) : Option (AddressRecord × PoolState) :=
  match lookupRetained st.retained id with
  | some r =>
      some (rebindRecord r u pn nn,
        { st with retained := removeRetained st.retained id })
  | none =>
      match st.free with
      | [] => none
      | a :: rest =>
          some ({ address := a,
                  binding := { podUID := u, podName := pn, nodeName := nn,
                               referredObject := id.referredObject,
                               stateful := some { index := id.index } },
                  network := net, subnet := sub },
                { st with free := rest })

/-- Modelled from the spec: releasing a stateful identity hands the cleared
record to the retention store instead of freeing the address. -/
def releaseToRetention (st : PoolState) (id : WorkloadIdentity)
    (r : AddressRecord) : PoolState :=
  { st with retained := retainRecord st.retained id r }

/-- Modelled from the spec: a dual-stack allocation takes one free IPv4 and
one free IPv6 address, generates a single MAC once, and attaches it to both
family records. -/
def allocateDualStack (v4Free v6Free : List String) (macGen : String)
    (id : WorkloadIdentity) (u pn nn net sub4 sub6 : String) :
    Option (List AddressRecord) :=
  match v4Free, v6Free with
  | ip4 :: _, ip6 :: _ =>
      some [{ address := { version := IPVersion.v4, ip := ip4, mac := macGen },
              binding := { podUID := u, podName := pn, nodeName := nn,
                           referredObject := id.referredObject,
                           stateful := some { index := id.index } },
              network := net, subnet := sub4 },
            { address := { version := IPVersion.v6, ip := ip6, mac := macGen },
              binding := { podUID := u, podName := pn, nodeName := nn,
                           referredObject := id.referredObject,
                           stateful := some { index := id.index } },
              network := net, subnet := sub6 }]
  | _, _ => none

/-! ## Timed view of CheckWithTimeout -/

/-- Timed view of one CheckWithTimeout run: the durations its three link-layer
calls would take.  The two PingOverIface calls receive the timeout parameter;
the boundedness of the gratuitous send is modelled from the spec (the arping
implementation is not in the visible source). -/
structure ArpTimedEnv where
  env : ArpEnv
  gatewayDur : Nat
  dupDur : Nat
  annDur : Nat

/-- Total latency of one run: the sum of the durations of exactly the steps
the control flow of checkWithTimeout executes. -/
def checkDuration (t : ArpTimedEnv) : Nat :=
  match t.env.gatewayProbe with
  | .noReply _ => t.gatewayDur
  | .reply _ =>
      match t.env.duplicateProbe with
      | .reply _ => t.gatewayDur + t.dupDur
      | .noReply _ => t.gatewayDur + t.dupDur + t.annDur

/-! ## Sample values used by witnesses -/

/-- A sample owning controller reference. -/
def sampleOwner : ObjectMeta :=
  { kind := "StatefulSet", name := "fake", uid := "owner-uid-1" }

/-- A sample stateful workload identity with ordinal 3. -/
def sampleIdentity : WorkloadIdentity :=
  { referredObject := sampleOwner, index := 3 }

/-- A sample IPv4 address value. -/
def sampleAddr4 : Address :=
  { version := IPVersion.v4, ip := "192.168.0.10", mac := "00:11:22:33:44:55" }

/-- A one-address pool with an empty retention index. -/
def samplePool : PoolState := { free := [sampleAddr4], retained := [] }

/-- The record the sample pool hands out for the sample identity. -/
def sampleRec1 : AddressRecord :=
  { address := sampleAddr4,
    binding := { podUID := "pod-uid-a", podName := "pod-3", nodeName := "node1",
                 referredObject := sampleOwner,
                 stateful := some { index := 3 } },
    network := "overlay", subnet := "subnet-v4" }

/-- The pool state left after the sample allocation. -/
def sampleSt1 : PoolState := { free := [], retained := [] }

/-- The record pair a sample dual-stack allocation yields. -/
def sampleDualRecs : List AddressRecord :=
  (allocateDualStack ["172.16.0.5"] ["fd00::5"] "0a:0b:0c:0d:0e:0f"
      sampleIdentity "pod-uid-a" "pod-3" "node3" "overlay"
      "subnet-v4" "subnet-v6").getD []

/-! ## Helper lemmas on the substring test -/

theorem startsWithL_self_append (p t : List Char) :
    startsWithL p (p ++ t) = true := by
  induction p with
  | nil => rfl
  | cons c cs ih => simp [startsWithL, ih]

theorem containsL_middle (pre pat suf : List Char) :
    containsL pat (pre ++ (pat ++ suf)) = true := by
  induction pre with
  | nil =>
      cases pat with
      | nil =>
          cases suf with
          | nil => rfl
          | cons c cs => simp [containsL, startsWithL]
      | cons p ps =>
          have h := startsWithL_self_append (p :: ps) suf
          simp only [List.cons_append] at h
          simp [containsL, h]
  | cons c cs ih => simp [containsL, ih]

theorem strContains_middle (pre pat suf : String) :
    strContains (pre ++ (pat ++ suf)) pat = true := by
  have h : (pre ++ (pat ++ suf)).data = pre.data ++ (pat.data ++ suf.data) := by
    simp [String.data_append]
  simp [strContains, h, containsL_middle]

theorem strContains_of_eq (s pre pat suf : String)
    (h : s = pre ++ (pat ++ suf)) : strContains s pat = true := by
  rw [h]; exact strContains_middle pre pat suf

theorem strContains_append_right (pre pat : String) :
    strContains (pre ++ pat) pat = true := by
  have h := containsL_middle pre.data pat.data []
  simpa [strContains, String.data_append] using h

/-- The handler's enqueue condition rewritten through the claim's change
predicate. -/
theorem updateRemoteVtep_eq_if (oldVtep newVtep : RemoteVtep) (q : List String) :
    updateRemoteVtep oldVtep newVtep q =
      if vtepFieldsDiffer oldVtep newVtep then q ++ [ActionReconcileNode] else q := by
  have hc : (oldVtep.spec.vtepInfo.ip != newVtep.spec.vtepInfo.ip
      || oldVtep.spec.vtepInfo.mac != newVtep.spec.vtepInfo.mac
      || goMapGet oldVtep.annotations AnnotationNodeLocalVxlanIPList
          != goMapGet newVtep.annotations AnnotationNodeLocalVxlanIPList
      || !isIPListEqual oldVtep.spec.endpointIPList newVtep.spec.endpointIPList)
      = vtepFieldsDiffer oldVtep newVtep := by
    rw [Bool.eq_iff_iff]
    simp [vtepFieldsDiffer, isIPListEqual]
  unfold updateRemoteVtep
  rw [hc]

theorem append_singleton_ne (q : List String) (a : String) : q ++ [a] ≠ q := by
  intro h
  have hl := congrArg List.length h
  simp at hl

/-! ## Claim theorems -/

/-- Claim C1: an Update event on a RemotePeer enqueues exactly one node
resync if and only if at least one of the compared fields differs between the
old and new snapshot — VTEP address, VTEP hardware address, node-local
address list (carried as an annotation string), or endpoint address list
(compared position-sensitively); when all compared fields are equal the queue
is left unchanged. -/
theorem updateRemoteVtep_enqueue_iff (oldVtep newVtep : RemoteVtep)
    (q : List String) :
    (updateRemoteVtep oldVtep newVtep q).length =
      q.length + (if vtepFieldsDiffer oldVtep newVtep then 1 else 0) ∧
    (updateRemoteVtep oldVtep newVtep q = q ++ [ActionReconcileNode] ↔
      vtepFieldsDiffer oldVtep newVtep = true) ∧
    (updateRemoteVtep oldVtep newVtep q = q ↔
      vtepFieldsDiffer oldVtep newVtep = false) := by
  rw [updateRemoteVtep_eq_if]
  cases h : vtepFieldsDiffer oldVtep newVtep with
  | true => simp [append_singleton_ne q ActionReconcileNode]
  | false => simp [fun hq => append_singleton_ne q ActionReconcileNode hq]

/-- Claim C2: when the gateway probe succeeded, a reply to the
duplicate-address probe makes CheckWithTimeout return the duplicate error,
whose text carries the responder hardware address; no reply to the duplicate
probe lets the run proceed to the gratuitous announcement step. -/
theorem check_duplicate_reply_detects (ifi : Iface) (src gw : String)
    (env : ArpEnv) (g : String)
    (hg : env.gatewayProbe = ProbeResult.reply g) :
    (∀ hw, env.duplicateProbe = ProbeResult.reply hw →
        (checkWithTimeout ifi src gw env).2 = some (duplicateMsg src hw) ∧
        strContains (duplicateMsg src hw) hw = true) ∧
    (∀ e, env.duplicateProbe = ProbeResult.noReply e →
        Step.announce ∈ (checkWithTimeout ifi src gw env).1) := by
  obtain ⟨gp, dp, ge⟩ := env
  simp only at hg
  subst hg
  constructor
  · intro hw hd
    simp only at hd
    subst hd
    refine ⟨by simp [checkWithTimeout], ?_⟩
    simp only [duplicateMsg]
    exact strContains_append_right _ hw
  · intro e hd
    simp only at hd
    subst hd
    cases ge <;> simp [checkWithTimeout]

/-- Claim C2 witness at a concrete environment. -/
theorem check_duplicate_reply_detects_w :
    (checkWithTimeout { name := "eth2" } "10.2.0.7" "10.2.0.1"
        { gatewayProbe := ProbeResult.reply "cc:cc:cc:cc:cc:01",
          duplicateProbe := ProbeResult.reply "cc:cc:cc:cc:cc:02",
          gratuitousErr := none }).2 =
      some (duplicateMsg "10.2.0.7" "cc:cc:cc:cc:cc:02") :=
  ((check_duplicate_reply_detects { name := "eth2" } "10.2.0.7" "10.2.0.1"
      { gatewayProbe := ProbeResult.reply "cc:cc:cc:cc:cc:01",
        duplicateProbe := ProbeResult.reply "cc:cc:cc:cc:cc:02",
        gratuitousErr := none } "cc:cc:cc:cc:cc:01" rfl).1
    "cc:cc:cc:cc:cc:02" rfl).1

/-- Claim C3: when the gateway probe fails, CheckWithTimeout returns the
gateway-unreachable error after attempting only the gateway probe; the
duplicate probe and the announcement are never attempted. -/
theorem check_gateway_failfast (ifi : Iface) (src gw : String) (env : ArpEnv)
    (e : String) (hg : env.gatewayProbe = ProbeResult.noReply e) :
    checkWithTimeout ifi src gw env =
      ([Step.gatewayProbe], some (gatewayFailMsg src gw e ifi.name)) ∧
    Step.duplicateProbe ∉ (checkWithTimeout ifi src gw env).1 ∧
    Step.announce ∉ (checkWithTimeout ifi src gw env).1 := by
  obtain ⟨gp, dp, ge⟩ := env
  simp only at hg
  subst hg
  simp [checkWithTimeout]

/-- Claim C3 witness at a concrete environment. -/
theorem check_gateway_failfast_w :
    checkWithTimeout { name := "eth3" } "10.3.0.9" "10.3.0.1"
        { gatewayProbe := ProbeResult.noReply "timeout",
          duplicateProbe := ProbeResult.noReply "timeout",
          gratuitousErr := none } =
      ([Step.gatewayProbe],
        some (gatewayFailMsg "10.3.0.9" "10.3.0.1" "timeout" "eth3")) :=
  (check_gateway_failfast { name := "eth3" } "10.3.0.9" "10.3.0.1"
      { gatewayProbe := ProbeResult.noReply "timeout",
        duplicateProbe := ProbeResult.noReply "timeout",
        gratuitousErr := none } "timeout" rfl).1

/-- Claim C4: CheckWithTimeout returns nil exactly when the gateway probe got
a reply, the duplicate probe got none, and the gratuitous send succeeded; in
particular a gratuitous-send failure yields the announce error, a hard
failure. -/
theorem check_success_iff (ifi : Iface) (src gw : String) (env : ArpEnv) :
    ((checkWithTimeout ifi src gw env).2 = none ↔
      (∃ g, env.gatewayProbe = ProbeResult.reply g) ∧
      (∃ e, env.duplicateProbe = ProbeResult.noReply e) ∧
      env.gratuitousErr = none) ∧
    (∀ g e c, env.gatewayProbe = ProbeResult.reply g →
      env.duplicateProbe = ProbeResult.noReply e →
      env.gratuitousErr = some c →
      (checkWithTimeout ifi src gw env).2 = some (announceFailMsg src c)) := by
  obtain ⟨gp, dp, ge⟩ := env
  constructor
  · cases gp <;> cases dp <;> cases ge <;> simp [checkWithTimeout]
  · intro g e c hg hd hge
    simp only at hg hd hge
    subst hg
    subst hd
    subst hge
    simp [checkWithTimeout]

/-- Claim C4 witness at a concrete environment. -/
theorem check_success_iff_w :
    (checkWithTimeout { name := "eth4" } "10.4.0.2" "10.4.0.1"
        { gatewayProbe := ProbeResult.reply "dd:dd:dd:dd:dd:01",
          duplicateProbe := ProbeResult.noReply "timeout",
          gratuitousErr := none }).2 = none :=
  (check_success_iff { name := "eth4" } "10.4.0.2" "10.4.0.1"
      { gatewayProbe := ProbeResult.reply "dd:dd:dd:dd:dd:01",
        duplicateProbe := ProbeResult.noReply "timeout",
        gratuitousErr := none }).1.mpr
    ⟨⟨"dd:dd:dd:dd:dd:01", rfl⟩, ⟨"timeout", rfl⟩, rfl⟩

/-- Claim C5: when each of the three link-layer calls keeps within the
timeout bound (the two probes take it as a parameter; the gratuitous send is
modelled as bounded from the spec), the latency of one CheckWithTimeout run
is at most three times the timeout. -/
theorem checkDuration_le_three_timeouts (t : ArpTimedEnv) (bound : Nat)
    (h1 : t.gatewayDur ≤ bound) (h2 : t.dupDur ≤ bound)
    (h3 : t.annDur ≤ bound) : checkDuration t ≤ 3 * bound := by
  cases hgp : t.env.gatewayProbe with
  | noReply e =>
      simp [checkDuration, hgp]
      omega
  | reply g =>
      cases hdp : t.env.duplicateProbe with
      | reply hw =>
          simp [checkDuration, hgp, hdp]
          omega
      | noReply e =>
          simp [checkDuration, hgp, hdp]
          omega

/-- Claim C5 witness at a concrete timed environment. -/
theorem checkDuration_le_three_timeouts_w :
    checkDuration
        { env := { gatewayProbe := ProbeResult.reply "ee:ee:ee:ee:ee:01",
                   duplicateProbe := ProbeResult.noReply "timeout",
                   gratuitousErr := none },
          gatewayDur := 2, dupDur := 3, annDur := 1 } ≤ 3 * 3 :=
  checkDuration_le_three_timeouts
    { env := { gatewayProbe := ProbeResult.reply "ee:ee:ee:ee:ee:01",
               duplicateProbe := ProbeResult.noReply "timeout",
               gratuitousErr := none },
      gatewayDur := 2, dupDur := 3, annDur := 1 } 3
    (by decide) (by decide) (by decide)

/-- Claim C6: releasing a stateful identity keeps the AddressRecord alive —
it clears only the binding PodUID and NodeName while PodName, ReferredObject,
the Stateful ordinal, the address, the network and the subnet are unchanged —
and a retained record is looked up only under exactly the identity it was
stored with, so it is never handed to a different workload identity. -/
theorem release_stateful_frame (r : AddressRecord) :
    (releaseStateful r).binding.podUID = "" ∧
    (releaseStateful r).binding.nodeName = "" ∧
    (releaseStateful r).binding.podName = r.binding.podName ∧
    (releaseStateful r).binding.referredObject = r.binding.referredObject ∧
    (releaseStateful r).binding.stateful = r.binding.stateful ∧
    (releaseStateful r).address = r.address ∧
    (releaseStateful r).network = r.network ∧
    (releaseStateful r).subnet = r.subnet ∧
    (∀ s id r0, lookupRetained s id = some r0 →
        ∃ e, e ∈ s ∧ e.1 = id ∧ e.2 = r0) := by
  refine ⟨rfl, rfl, rfl, rfl, rfl, rfl, rfl, rfl, ?_⟩
  intro s id r0 h
  unfold lookupRetained at h
  cases hf : List.find? (fun e => decide (e.1 = id)) s with
  | none => rw [hf] at h; cases h
  | some e =>
      rw [hf] at h
      injection h with h2
      subst h2
      have hmem := List.mem_of_find?_eq_some hf
      have hp := List.find?_some hf
      exact ⟨e, hmem, of_decide_eq_true hp, rfl⟩

/-- Claim C6 witness at a concrete record. -/
theorem release_stateful_frame_w :
    (releaseStateful sampleRec1).binding.podUID = "" ∧
    (releaseStateful sampleRec1).binding.podName = sampleRec1.binding.podName :=
  ⟨(release_stateful_frame sampleRec1).1,
    (release_stateful_frame sampleRec1).2.2.1⟩

/-- Claim C7: after an Allocate for a stateful identity and a Release of the
returned record to the retention store, a second Allocate for the same
identity returns the same record — same address and MAC, owner and ordinal
preserved — rebound to the new pod UID and node, without consuming a fresh
address from the pool. -/
theorem retention_round_trip (st st1 : PoolState) (id : WorkloadIdentity)
    (u1 pn nn1 u2 nn2 net sub : String) (r1 : AddressRecord)
    (h1 : allocateOne st id u1 pn nn1 net sub = some (r1, st1)) :
    allocateOne (releaseToRetention st1 id r1) id u2 pn nn2 net sub =
      some (rebindRecord (releaseStateful r1) u2 pn nn2,
        { free := st1.free,
          retained := removeRetained (retainRecord st1.retained id r1) id }) ∧
    (rebindRecord (releaseStateful r1) u2 pn nn2).address = r1.address ∧
    (rebindRecord (releaseStateful r1) u2 pn nn2).address.mac = r1.address.mac ∧
    (rebindRecord (releaseStateful r1) u2 pn nn2).binding.podUID = u2 ∧
    (rebindRecord (releaseStateful r1) u2 pn nn2).binding.podName = pn ∧
    (rebindRecord (releaseStateful r1) u2 pn nn2).binding.nodeName = nn2 ∧
    (rebindRecord (releaseStateful r1) u2 pn nn2).binding.referredObject =
      r1.binding.referredObject ∧
    (rebindRecord (releaseStateful r1) u2 pn nn2).binding.stateful =
      r1.binding.stateful := by
  refine ⟨?_, rfl, rfl, rfl, rfl, rfl, rfl, rfl⟩
  simp [allocateOne, releaseToRetention, retainRecord, lookupRetained,
    List.find?]

/-- Claim C7 witness at a concrete pool and identity. -/
theorem retention_round_trip_w :
    allocateOne (releaseToRetention sampleSt1 sampleIdentity sampleRec1)
        sampleIdentity "pod-uid-b" "pod-3" "node2" "overlay" "subnet-v4" =
      some (rebindRecord (releaseStateful sampleRec1) "pod-uid-b" "pod-3" "node2",
        { free := sampleSt1.free,
          retained := removeRetained
            (retainRecord sampleSt1.retained sampleIdentity sampleRec1)
            sampleIdentity }) :=
  (retention_round_trip samplePool sampleSt1 sampleIdentity "pod-uid-a" "pod-3"
      "node1" "pod-uid-b" "node2" "overlay" "subnet-v4" sampleRec1 rfl).1

/-- Claim C8: a dual-stack allocation for one workload yields exactly two
AddressRecords, the first IPv4 and the second IPv6, whose MAC fields both
equal the single generated MAC. -/
theorem dualstack_two_records_shared_mac (v4Free v6Free : List String)
    (macGen : String) (id : WorkloadIdentity) (u pn nn net sub4 sub6 : String)
    (recs : List AddressRecord)
    (h : allocateDualStack v4Free v6Free macGen id u pn nn net sub4 sub6 =
      some recs) :
    recs.length = 2 ∧
    recs.map (fun r => r.address.version) = [IPVersion.v4, IPVersion.v6] ∧
    recs.map (fun r => r.address.mac) = [macGen, macGen] := by
  cases v4Free with
  | nil => simp [allocateDualStack] at h
  | cons ip4 rest4 =>
      cases v6Free with
      | nil => simp [allocateDualStack] at h
      | cons ip6 rest6 =>
          simp only [allocateDualStack, Option.some.injEq] at h
          subst h
          simp

/-- Claim C8 witness at concrete pools. -/
theorem dualstack_two_records_shared_mac_w :
    sampleDualRecs.length = 2 ∧
    sampleDualRecs.map (fun r => r.address.version) =
      [IPVersion.v4, IPVersion.v6] ∧
    sampleDualRecs.map (fun r => r.address.mac) =
      ["0a:0b:0c:0d:0e:0f", "0a:0b:0c:0d:0e:0f"] :=
  dualstack_two_records_shared_mac ["172.16.0.5"] ["fd00::5"]
    "0a:0b:0c:0d:0e:0f" sampleIdentity "pod-uid-a" "pod-3" "node3" "overlay"
    "subnet-v4" "subnet-v6" sampleDualRecs rfl

/-- Claim C9 counterexample: CheckWithTimeout errors are formatted strings,
and the duplicate-address error does not carry the interface — on interface
eth0 the returned duplicate message has no occurrence of the interface name
eth0. -/
theorem activate_error_unstructured_cx :
    (checkWithTimeout { name := "eth0" } "10.0.0.5" "10.0.0.1"
        { gatewayProbe := ProbeResult.reply "aa:aa:aa:aa:aa:01",
          duplicateProbe := ProbeResult.reply "aa:aa:aa:aa:aa:02",
          gratuitousErr := none }).2 =
      some (duplicateMsg "10.0.0.5" "aa:aa:aa:aa:aa:02") ∧
    strContains (duplicateMsg "10.0.0.5" "aa:aa:aa:aa:aa:02") "eth0" = false :=
  ⟨rfl, by decide⟩

/-- Claim C9 amended: every error returned by CheckWithTimeout is a formatted
message string; the gateway error carries the source address, the gateway
address, the probe failure cause and the interface name, the duplicate error
carries the source address and the responder hardware address, and the
announce error carries the source address and the underlying cause — but the
duplicate and announce errors do not carry the interface. -/
theorem activate_error_context (ifi : Iface) (src gw : String) (env : ArpEnv) :
    (∀ e, env.gatewayProbe = ProbeResult.noReply e →
      (checkWithTimeout ifi src gw env).2 =
        some (gatewayFailMsg src gw e ifi.name) ∧
      strContains (gatewayFailMsg src gw e ifi.name) src = true ∧
      strContains (gatewayFailMsg src gw e ifi.name) gw = true ∧
      strContains (gatewayFailMsg src gw e ifi.name) e = true ∧
      strContains (gatewayFailMsg src gw e ifi.name) ifi.name = true) ∧
    (∀ g hw, env.gatewayProbe = ProbeResult.reply g →
      env.duplicateProbe = ProbeResult.reply hw →
      (checkWithTimeout ifi src gw env).2 = some (duplicateMsg src hw) ∧
      strContains (duplicateMsg src hw) src = true ∧
      strContains (duplicateMsg src hw) hw = true) ∧
    (∀ g d c, env.gatewayProbe = ProbeResult.reply g →
      env.duplicateProbe = ProbeResult.noReply d →
      env.gratuitousErr = some c →
      (checkWithTimeout ifi src gw env).2 = some (announceFailMsg src c) ∧
      strContains (announceFailMsg src c) src = true ∧
      strContains (announceFailMsg src c) c = true) := by
  obtain ⟨gp, dp, ge⟩ := env
  refine ⟨?_, ?_, ?_⟩
  · intro e hg
    simp only at hg
    subst hg
    refine ⟨by simp [checkWithTimeout], ?_, ?_, ?_, ?_⟩
    · exact strContains_of_eq _ "arp resolve from pod " src
        (" to gateway " ++ gw ++ " failed: " ++ e ++
          ", vlan network seems not working, please check the setting of " ++
          ifi.name ++ "\x27s upper physical switch port first")
        (by simp [gatewayFailMsg, String.append_assoc])
    · exact strContains_of_eq _ ("arp resolve from pod " ++ src ++ " to gateway ")
        gw
        (" failed: " ++ e ++
          ", vlan network seems not working, please check the setting of " ++
          ifi.name ++ "\x27s upper physical switch port first")
        (by simp [gatewayFailMsg, String.append_assoc])
    · exact strContains_of_eq _
        ("arp resolve from pod " ++ src ++ " to gateway " ++ gw ++ " failed: ")
        e
        (", vlan network seems not working, please check the setting of " ++
          ifi.name ++ "\x27s upper physical switch port first")
        (by simp [gatewayFailMsg, String.append_assoc])
    · exact strContains_of_eq _
        ("arp resolve from pod " ++ src ++ " to gateway " ++ gw ++ " failed: " ++
          e ++ ", vlan network seems not working, please check the setting of ")
        ifi.name
        "\x27s upper physical switch port first"
        (by simp [gatewayFailMsg, String.append_assoc])
  · intro g hw hg hd
    simp only at hg hd
    subst hg
    subst hd
    refine ⟨by simp [checkWithTimeout], ?_, ?_⟩
    · exact strContains_of_eq _ "pod ip " src
        (" duplicated, please check if ip " ++ src ++
          " is occupied by other machines or containers, another hw addr is " ++
          hw)
        (by simp [duplicateMsg, String.append_assoc])
    · simp only [duplicateMsg]
      exact strContains_append_right _ hw
  · intro g d c hg hd hge
    simp only at hg hd hge
    subst hg
    subst hd
    subst hge
    refine ⟨by simp [checkWithTimeout], ?_, ?_⟩
    · exact strContains_of_eq _ "send gratuitous arp for pod " src
        (" failed " ++ c)
        (by simp [announceFailMsg, String.append_assoc])
    · simp only [announceFailMsg]
      exact strContains_append_right _ c

/-- Claim C9 witness at a concrete environment. -/
theorem activate_error_context_w :
    strContains (gatewayFailMsg "10.9.0.3" "10.9.0.1" "timeout" "eth9")
      "eth9" = true :=
  ((activate_error_context { name := "eth9" } "10.9.0.3" "10.9.0.1"
      { gatewayProbe := ProbeResult.noReply "timeout",
        duplicateProbe := ProbeResult.noReply "timeout",
        gratuitousErr := none }).1 "timeout" rfl).2.2.2.2

/-- Claim C10: the duplicate-address step treats every error outcome of the
probe identically as no duplicate — the run result does not depend on which
error the probe returned, and the gratuitous announcement is attempted. -/
theorem duplicate_probe_error_uniform (ifi : Iface) (src gw : String)
    (env : ArpEnv) (g e1 e2 : String)
    (hg : env.gatewayProbe = ProbeResult.reply g) :
    checkWithTimeout ifi src gw
        { env with duplicateProbe := ProbeResult.noReply e1 } =
      checkWithTimeout ifi src gw
        { env with duplicateProbe := ProbeResult.noReply e2 } ∧
    Step.announce ∈
      (checkWithTimeout ifi src gw
        { env with duplicateProbe := ProbeResult.noReply e1 }).1 := by
  obtain ⟨gp, dp, ge⟩ := env
  simp only at hg
  subst hg
  cases ge <;> simp [checkWithTimeout]

/-- Claim C10 witness: a send failure and a timeout of the duplicate probe
give the same run result. -/
theorem duplicate_probe_error_uniform_w :
    checkWithTimeout { name := "eth5" } "10.5.0.6" "10.5.0.1"
        { gatewayProbe := ProbeResult.reply "ff:ff:ff:ff:ff:01",
          duplicateProbe := ProbeResult.noReply "send failed",
          gratuitousErr := none } =
      checkWithTimeout { name := "eth5" } "10.5.0.6" "10.5.0.1"
        { gatewayProbe := ProbeResult.reply "ff:ff:ff:ff:ff:01",
          duplicateProbe := ProbeResult.noReply "timeout",
          gratuitousErr := none } :=
  (duplicate_probe_error_uniform { name := "eth5" } "10.5.0.6" "10.5.0.1"
      { gatewayProbe := ProbeResult.reply "ff:ff:ff:ff:ff:01",
        duplicateProbe := ProbeResult.reply "unused",
        gratuitousErr := none } "ff:ff:ff:ff:ff:01" "send failed" "timeout"
      rfl).1

end Hybridnet
